import Mathlib

/-!
Verification development for the webhook verification and event-dispatch
subsystem of the singlekey-sdk repository.

The definitions below are a shallow embedding of the TypeScript source
(`WebhookHandler`, `constructWebhookSignature`, and the JSON / parseInt
platform primitives they call).  HMAC-SHA256 is a platform primitive of
fixed 64-hex-character output; it is passed in as an explicit function
argument `hmac : String → String → String`, so every theorem quantifies
over the digest function and in particular holds for the real one.
Wall-clock time (`Math.floor(Date.now() / 1000)`) is passed in as an
explicit `now : Int`.
-/

/-- Model of parsed JSON values, the result type of `JSON.parse`. -/
inductive Json where
  | null : Json
  | bool (b : Bool) : Json
  | num (lexeme : String) : Json
  | str (s : String) : Json
  | arr (elems : List Json) : Json
  | obj (fields : List (String × Json)) : Json

/-- JSON whitespace characters (space, tab, line feed, carriage return). -/
def jsonWs (c : Char) : Bool :=
  c == ' ' || c == '\t' || c == '\n' || c == '\r'

/-- Value of a hexadecimal digit, if the character is one. -/
def hexVal (c : Char) : Option Nat :=
  if '0' ≤ c ∧ c ≤ '9' then some (c.toNat - 48)
  else if 'a' ≤ c ∧ c ≤ 'f' then some (c.toNat - 87)
  else if 'A' ≤ c ∧ c ≤ 'F' then some (c.toNat - 55)
  else none

/-- Body of a JSON string literal after the opening quote: consumes
characters and escapes up to the closing quote.  Fuel decreases once per
consumed character, so `length + 1` fuel always suffices. -/
def parseJsonStringBody : Nat → List Char → List Char → Option (String × List Char)
  | 0, _, _ => none
  | _ + 1, [], _ => none
  | fuel + 1, c :: rest, acc =>
    if c == '"' then some (String.mk acc.reverse, rest)
    else if c == '\\' then
      match rest with
      | [] => none
      | e :: rest2 =>
        if e == '"' then parseJsonStringBody fuel rest2 ('"' :: acc)
        else if e == '\\' then parseJsonStringBody fuel rest2 ('\\' :: acc)
        else if e == '/' then parseJsonStringBody fuel rest2 ('/' :: acc)
        else if e == 'b' then parseJsonStringBody fuel rest2 ('\x08' :: acc)
        else if e == 'f' then parseJsonStringBody fuel rest2 ('\x0C' :: acc)
        else if e == 'n' then parseJsonStringBody fuel rest2 ('\n' :: acc)
        else if e == 'r' then parseJsonStringBody fuel rest2 ('\r' :: acc)
        else if e == 't' then parseJsonStringBody fuel rest2 ('\t' :: acc)
        else if e == 'u' then
          match rest2 with
          | h1 :: h2 :: h3 :: h4 :: rest3 =>
            match hexVal h1, hexVal h2, hexVal h3, hexVal h4 with
            | some a, some b, some c2, some d =>
              parseJsonStringBody fuel rest3
                (Char.ofNat (((a * 16 + b) * 16 + c2) * 16 + d) :: acc)
            | _, _, _, _ => none
          | _ => none
        else none
    else if c.toNat < 32 then none
    else parseJsonStringBody fuel rest (c :: acc)

/-- Optional fraction part of a JSON number (`.` followed by digits). -/
def parseFracPart (cs : List Char) : Option (List Char × List Char) :=
  match cs with
  | '.' :: r =>
    let ds := r.takeWhile Char.isDigit
    if ds.isEmpty then none else some ('.' :: ds, r.dropWhile Char.isDigit)
  | _ => some ([], cs)

/-- Optional exponent part of a JSON number (`e`/`E`, sign, digits). -/
def parseExpPart (cs : List Char) : Option (List Char × List Char) :=
  match cs with
  | [] => some ([], [])
  | c :: r =>
    if c == 'e' || c == 'E' then
      let signAndRest : List Char × List Char :=
        match r with
        | '+' :: rr => (['+'], rr)
        | '-' :: rr => (['-'], rr)
        | _ => ([], r)
      let ds := signAndRest.2.takeWhile Char.isDigit
      if ds.isEmpty then none
      else some (c :: (signAndRest.1 ++ ds), signAndRest.2.dropWhile Char.isDigit)
    else some ([], c :: r)

/-- A JSON number lexeme following the JSON grammar
`-? (0 | [1-9][0-9]*) (. [0-9]+)? ([eE][+-]?[0-9]+)?`. -/
def parseJsonNumber (cs : List Char) : Option (List Char × List Char) :=
  let signAndRest : List Char × List Char :=
    match cs with
    | '-' :: r => (['-'], r)
    | _ => ([], cs)
  let intPart := signAndRest.2.takeWhile Char.isDigit
  if intPart.isEmpty then none
  else if intPart.headD '0' == '0' && 1 < intPart.length then none
  else
    match parseFracPart (signAndRest.2.dropWhile Char.isDigit) with
    | none => none
    | some (fracPart, rest2) =>
      match parseExpPart rest2 with
      | none => none
      | some (expPart, rest3) =>
        some (signAndRest.1 ++ intPart ++ fracPart ++ expPart, rest3)

mutual

/-- One JSON value, with fuel bounding the recursion depth. -/
def parseJsonValue : Nat → List Char → Option (Json × List Char)
  | 0, _ => none
  | fuel + 1, cs =>
    match cs.dropWhile jsonWs with
    | [] => none
    | 'n' :: 'u' :: 'l' :: 'l' :: rest => some (Json.null, rest)
    | 't' :: 'r' :: 'u' :: 'e' :: rest => some (Json.bool true, rest)
    | 'f' :: 'a' :: 'l' :: 's' :: 'e' :: rest => some (Json.bool false, rest)
    | '"' :: rest =>
      match parseJsonStringBody fuel rest [] with
      | some (s, rest2) => some (Json.str s, rest2)
      | none => none
    | '[' :: rest =>
      match rest.dropWhile jsonWs with
      | ']' :: rest2 => some (Json.arr [], rest2)
      | _ =>
        match parseJsonElems fuel rest with
        | some (vs, rest2) => some (Json.arr vs, rest2)
        | none => none
    | '\x7b' :: rest =>
      match rest.dropWhile jsonWs with
      | '\x7d' :: rest2 => some (Json.obj [], rest2)
      | _ =>
        match parseJsonMembers fuel rest with
        | some (fs, rest2) => some (Json.obj fs, rest2)
        | none => none
    | c :: rest =>
      if c == '-' || c.isDigit then
        match parseJsonNumber (c :: rest) with
        | some (lex, rest2) => some (Json.num (String.mk lex), rest2)
        | none => none
      else none

/-- Comma-separated JSON array elements up to the closing bracket. -/
def parseJsonElems : Nat → List Char → Option (List Json × List Char)
  | 0, _ => none
  | fuel + 1, cs =>
    match parseJsonValue fuel cs with
    | none => none
    | some (v, rest) =>
      match rest.dropWhile jsonWs with
      | ']' :: rest2 => some ([v], rest2)
      | ',' :: rest2 =>
        match parseJsonElems fuel rest2 with
        | some (vs, rest3) => some (v :: vs, rest3)
        | none => none
      | _ => none

/-- Comma-separated JSON object members up to the closing brace. -/
def parseJsonMembers : Nat → List Char → Option (List (String × Json) × List Char)
  | 0, _ => none
  | fuel + 1, cs =>
    match cs.dropWhile jsonWs with
    | '"' :: rest =>
      match parseJsonStringBody fuel rest [] with
      | none => none
      | some (k, rest2) =>
        match rest2.dropWhile jsonWs with
        | ':' :: rest3 =>
          match parseJsonValue fuel rest3 with
          | none => none
          | some (v, rest4) =>
            match rest4.dropWhile jsonWs with
            | '\x7d' :: rest5 => some ([(k, v)], rest5)
            | ',' :: rest5 =>
              match parseJsonMembers fuel rest5 with
              | some (fs, rest6) => some ((k, v) :: fs, rest6)
              | none => none
            | _ => none
        | _ => none
    | _ => none

end

/-- Model of `JSON.parse`: parse one value, allow trailing whitespace only,
fail (model of a thrown `SyntaxError`) with `none`. -/
def jsonParse (s : String) : Option Json :=
  match parseJsonValue (s.data.length + 1) s.data with
  | some (v, rest) => if (rest.dropWhile jsonWs).isEmpty then some v else none
  | none => none

/-- JavaScript whitespace characters skipped by `parseInt` (space, tab,
line feed, vertical tab, form feed, carriage return). -/
def isJsSpace (c : Char) : Bool :=
  c == ' ' || c == '\t' || c == '\n' || c == '\r' ||
    c == '\x0B' || c == '\x0C'

/-- Numeric value of a decimal digit character. -/
def digitVal (c : Char) : Nat := c.toNat - 48

/-- Value of a list of decimal digit characters, most significant first. -/
def digitsToNat (cs : List Char) : Nat :=
  cs.foldl (fun a c => a * 10 + digitVal c) 0

/-- Longest leading run of decimal digits, as a number; `none` if there is
no leading digit (`parseInt` then yields `NaN`). -/
def parseDigits (cs : List Char) : Option Nat :=
  let ds := cs.takeWhile Char.isDigit
  if ds.isEmpty then none else some (digitsToNat ds)

/-- Model of `parseInt(s, 10)`: skip leading whitespace, an optional sign,
then the longest digit run; `none` models `NaN` (no leading digit). Any
trailing non-digit characters are ignored, exactly as in JavaScript. -/
def parseIntJS (s : String) : Option Int :=
  match s.data.dropWhile isJsSpace with
  | [] => none
  | c :: rest =>
    if c == '-' then (parseDigits rest).map (fun n => -(n : Int))
    else if c == '+' then (parseDigits rest).map (fun n => (n : Int))
    else (parseDigits (c :: rest)).map (fun n => (n : Int))

/-- Decimal digit character for `n < 10`. -/
def digitChar (n : Nat) : Char := Char.ofNat (48 + n)

/-- Fuel-bounded digit expansion; `n < fuel` always yields the digits of
`n`, most significant first. -/
def natDecimalAux : Nat → Nat → List Char
  | 0, _ => []
  | fuel + 1, n =>
    if n < 10 then [digitChar n]
    else natDecimalAux fuel (n / 10) ++ [digitChar (n % 10)]

/-- Decimal digit characters of a natural number, most significant first
(the character content of JavaScript number-to-string on a whole number). -/
def natDecimal (n : Nat) : List Char := natDecimalAux (n + 1) n

/-- Model of JavaScript number-to-string (template interpolation and
`Number.prototype.toString`) on a whole number: plain decimal, with a
leading minus sign when negative. -/
def intToString (i : Int) : String :=
  if i < 0 then String.mk ('-' :: natDecimal i.natAbs)
  else String.mk (natDecimal i.toNat)

/-- Error values observable from the webhook subsystem:
`WebhookVerificationError` with its message, and the `RangeError` that
`crypto.timingSafeEqual` throws when the two buffers differ in byte
length. -/
inductive WebhookError where
  | verification (msg : String) : WebhookError
  | rangeError : WebhookError
deriving DecidableEq

/-- Embedding of the `WebhookVerificationOptions` interface. -/
structure WebhookVerificationOptions where
  secret : String
  tolerance : Option Int := none

/-- State of a constructed `WebhookHandler`: the stored secret (absent when
no options were supplied) and the effective tolerance in seconds. -/
structure WebhookHandler where
  secret : Option String
  tolerance : Int

/-- Embedding of the `WebhookHandler` constructor.  `options?.tolerance ||
300` takes the default when `options` or `tolerance` is absent or the
falsy value `0`. -/
def WebhookHandler.create (options : Option WebhookVerificationOptions) :
    WebhookHandler :=
  { secret := options.map (fun o => o.secret)
    tolerance :=
      match options with
      | none => 300
      | some o =>
        match o.tolerance with
        | none => 300
        | some t => if t = 0 then 300 else t }

/-- UTF-8 byte length of a string, the byte length of `Buffer.from(s)`. -/
def utf8Len (s : String) : Nat :=
  s.data.foldl (fun n c => n + c.utf8Size) 0

/-- Embedding of `crypto.timingSafeEqual` on the UTF-8 buffers of two
strings: throws `RangeError` when the byte lengths differ, otherwise
reports whether the buffers are equal (equal byte sequences correspond
exactly to equal strings). -/
def timingSafeEqual (a b : String) : Except WebhookError Bool :=
  if utf8Len a == utf8Len b then Except.ok (a == b)
  else Except.error WebhookError.rangeError

/-- Embedding of `WebhookHandler.verifySignature`.  `hmac` is the platform
primitive `hex(HMAC_SHA256(secret, message))`; `now` is the sampled value
of `Math.floor(Date.now() / 1000)`. -/
def WebhookHandler.verifySignature (h : WebhookHandler)
    (hmac : String → String → String) (now : Int)
    (payload signature timestamp : String) : Except WebhookError Bool :=
  match h.secret with
  | none => Except.error (WebhookError.verification "Webhook secret not configured")
  | some secret =>
    if secret == "" then
      Except.error (WebhookError.verification "Webhook secret not configured")
    else
      match parseIntJS timestamp with
      | none => Except.error (WebhookError.verification "Invalid timestamp format")
      | some webhookTime =>
        if h.tolerance < ((now - webhookTime).natAbs : Int) then
          Except.error
            (WebhookError.verification "Webhook timestamp too old or from the future")
        else
          timingSafeEqual signature (hmac secret (timestamp ++ "." ++ payload))

/-- The `JSON.parse` step of `parseWebhook`, including its `try`/`catch`
that rethrows any parse failure as a `WebhookVerificationError`. -/
def jsonParseStep (rawPayload : String) : Except WebhookError Json :=
  match jsonParse rawPayload with
  | some j => Except.ok j
  | none => Except.error (WebhookError.verification "Invalid webhook payload JSON")

/-- Embedding of `WebhookHandler.parseWebhook`: verification runs first
when (and only when) the stored secret is truthy; a `false` verification
result becomes a thrown error, a thrown verification error propagates. -/
def WebhookHandler.parseWebhook (h : WebhookHandler)
    (hmac : String → String → String) (now : Int)
    (rawPayload signature timestamp : String) : Except WebhookError Json :=
  match h.secret with
  | none => jsonParseStep rawPayload
  | some secret =>
    if secret == "" then jsonParseStep rawPayload
    else
      match h.verifySignature hmac now rawPayload signature timestamp with
      | Except.error e => Except.error e
      | Except.ok false =>
        Except.error (WebhookError.verification "Invalid webhook signature")
      | Except.ok true => jsonParseStep rawPayload

/-- The six known event tags of the `WebhookEventType` union. -/
inductive WebhookEventType where
  | screeningCompleted : WebhookEventType
  | screeningSubmitted : WebhookEventType
  | screeningPaymentCaptured : WebhookEventType
  | screeningFailed : WebhookEventType
  | formOpened : WebhookEventType
  | inviteSent : WebhookEventType
deriving DecidableEq

/-- The event tag string of each `WebhookEventType` member. -/
def WebhookEventType.tag : WebhookEventType → String
  | WebhookEventType.screeningCompleted => "screening.completed"
  | WebhookEventType.screeningSubmitted => "screening.submitted"
  | WebhookEventType.screeningPaymentCaptured => "screening.payment_captured"
  | WebhookEventType.screeningFailed => "screening.failed"
  | WebhookEventType.formOpened => "form.opened"
  | WebhookEventType.inviteSent => "invite.sent"

/-- Which known event tag, if any, a string denotes. -/
def webhookEventTypeOfString (s : String) : Option WebhookEventType :=
  if s == "screening.completed" then some WebhookEventType.screeningCompleted
  else if s == "screening.submitted" then some WebhookEventType.screeningSubmitted
  else if s == "screening.payment_captured" then
    some WebhookEventType.screeningPaymentCaptured
  else if s == "screening.failed" then some WebhookEventType.screeningFailed
  else if s == "form.opened" then some WebhookEventType.formOpened
  else if s == "invite.sent" then some WebhookEventType.inviteSent
  else none

/-- JavaScript property access `j[k]` on a parsed JSON value: `none`
models `undefined` (missing key or non-object receiver); on duplicate
keys the last binding wins, as in `JSON.parse`. -/
def jsGetField (j : Json) (k : String) : Option Json :=
  match j with
  | Json.obj fields =>
    fields.foldl (fun acc kv => if kv.1 == k then some kv.2 else acc) none
  | _ => none

/-- The handler, if any, that `handlers[webhook.event as WebhookEventType]`
selects: a handler is found only when `webhook.event` is a string equal to
one of the six known tags and that slot of the map is filled. -/
def eventTagLookup {α : Type} (handlers : WebhookEventType → Option α)
    (webhook : Json) : Option α :=
  match jsGetField webhook "event" with
  | some (Json.str s) => (webhookEventTypeOfString s).bind handlers
  | _ => none

/-- Embedding of `WebhookHandler.on`: builds the dispatch function.  A
handler receives `webhook.data` (`none` models `undefined`); its result is
`Except.error` when the handler throws or rejects, and the dispatcher
returns the awaited handler outcome unchanged, or succeeds as a no-op when
no handler is registered for the tag. -/
def WebhookHandler.on {ε : Type}
    (handlers : WebhookEventType → Option (Option Json → Except ε Unit)) :
    Json → Except ε Unit :=
  fun webhook =>
    match eventTagLookup handlers webhook with
    | some handler => handler (jsGetField webhook "data")
    | none => Except.ok ()

/-- Embedding of `constructWebhookSignature`.  `timestamp || Math.floor(
Date.now() / 1000)` falls back to `now` when the argument is absent or the
falsy value `0`; the returned pair is `(signature, timestamp.toString())`. -/
def constructWebhookSignature (hmac : String → String → String) (now : Int)
    (payload secret : String) (timestamp : Option Int) : String × String :=
  let ts : Int :=
    match timestamp with
    | none => now
    | some t => if t = 0 then now else t
  (hmac secret (intToString ts ++ "." ++ payload), intToString ts)

/-- A stand-in digest function used to instantiate theorems at concrete
inputs: like the real `hex(HMAC_SHA256(·,·))` it returns a 64-character
ASCII hex string. -/
def hmacStub : String → String → String :=
  fun _ _ => String.mk (List.replicate 64 'a')

theorem digitChar_isDigit (k : Nat) (h : k < 10) : (digitChar k).isDigit = true := by
  interval_cases k <;> decide

theorem digitVal_digitChar (k : Nat) (h : k < 10) : digitVal (digitChar k) = k := by
  interval_cases k <;> decide

theorem natDecimalAux_congr (f1 : Nat) :
    ∀ (f2 n : Nat), n < f1 → n < f2 → natDecimalAux f1 n = natDecimalAux f2 n := by
  induction f1 with
  | zero => intro f2 n h1 _; omega
  | succ f1 ih =>
    intro f2 n h1 h2
    cases f2 with
    | zero => omega
    | succ f2 =>
      rw [natDecimalAux, natDecimalAux]
      split
      · rfl
      · rw [ih f2 (n / 10) (by omega) (by omega)]

theorem natDecimal_eq (n : Nat) :
    natDecimal n =
      if n < 10 then [digitChar n]
      else natDecimal (n / 10) ++ [digitChar (n % 10)] := by
  show natDecimalAux (n + 1) n = _
  rw [natDecimalAux]
  split
  · rfl
  · rw [natDecimalAux_congr n (n / 10 + 1) (n / 10) (by omega) (by omega)]
    rfl

theorem natDecimal_ne_nil (n : Nat) : natDecimal n ≠ [] := by
  rw [natDecimal_eq]
  split <;> simp

theorem natDecimal_all_digits (n : Nat) : ∀ c ∈ natDecimal n, c.isDigit = true := by
  induction n using Nat.strong_induction_on with
  | _ n ih =>
    rw [natDecimal_eq]
    split
    · rename_i h
      intro c hc
      simp only [List.mem_singleton] at hc
      subst hc
      exact digitChar_isDigit n h
    · intro c hc
      rcases List.mem_append.mp hc with h1 | h2
      · exact ih (n / 10) (by omega) c h1
      · simp only [List.mem_singleton] at h2
        subst h2
        exact digitChar_isDigit (n % 10) (by omega)

theorem digitsToNat_append_single (cs : List Char) (c : Char) :
    digitsToNat (cs ++ [c]) = digitsToNat cs * 10 + digitVal c := by
  simp [digitsToNat, List.foldl_append]

theorem digitsToNat_natDecimal (n : Nat) : digitsToNat (natDecimal n) = n := by
  induction n using Nat.strong_induction_on with
  | _ n ih =>
    rw [natDecimal_eq]
    split
    · rename_i h
      have : digitsToNat [digitChar n] = digitVal (digitChar n) := by
        simp [digitsToNat]
      rw [this, digitVal_digitChar n h]
    · rename_i h
      rw [digitsToNat_append_single, ih (n / 10) (by omega),
        digitVal_digitChar (n % 10) (by omega)]
      omega

theorem takeWhile_of_all {p : Char → Bool} (cs : List Char)
    (h : ∀ c ∈ cs, p c = true) : cs.takeWhile p = cs := by
  induction cs with
  | nil => rfl
  | cons c cs ih =>
    rw [List.takeWhile_cons, h c (by simp)]
    simp [ih (fun c2 hc2 => h c2 (by simp [hc2]))]

theorem dropWhile_cons_of_neg {p : Char → Bool} {c : Char} {cs : List Char}
    (h : p c = false) : (c :: cs).dropWhile p = c :: cs := by
  simp [List.dropWhile_cons, h]

theorem parseDigits_natDecimal (n : Nat) : parseDigits (natDecimal n) = some n := by
  unfold parseDigits
  rw [takeWhile_of_all _ (natDecimal_all_digits n)]
  rw [if_neg (by simp [List.isEmpty_iff, natDecimal_ne_nil n])]
  rw [digitsToNat_natDecimal n]

theorem isJsSpace_eq_false_of_isDigit {c : Char} (h : c.isDigit = true) :
    isJsSpace c = false := by
  cases hx : isJsSpace c with
  | false => rfl
  | true =>
    unfold isJsSpace at hx
    simp only [Bool.or_eq_true, beq_iff_eq] at hx
    rcases hx with ((((h1 | h2) | h3) | h4) | h5) | h6 <;>
      (subst_vars; simp at h)

theorem digit_beq_eq_false {c d : Char} (h : c.isDigit = true)
    (hd : d.isDigit = false) : (c == d) = false := by
  cases hx : c == d with
  | false => rfl
  | true =>
    have he : c = d := eq_of_beq hx
    rw [he, hd] at h
    simp at h

theorem parseIntJS_natDecimal (n : Nat) :
    parseIntJS (String.mk (natDecimal n)) = some (n : Int) := by
  obtain ⟨c, rest, heq⟩ := List.exists_cons_of_ne_nil (natDecimal_ne_nil n)
  have hdig : c.isDigit = true := natDecimal_all_digits n c (by rw [heq]; simp)
  unfold parseIntJS
  show (match (natDecimal n).dropWhile isJsSpace with
    | [] => none
    | c :: rest =>
      if c == '-' then (parseDigits rest).map (fun n => -(n : Int))
      else if c == '+' then (parseDigits rest).map (fun n => (n : Int))
      else (parseDigits (c :: rest)).map (fun n => (n : Int))) = some (n : Int)
  rw [heq, dropWhile_cons_of_neg (isJsSpace_eq_false_of_isDigit hdig)]
  simp only [digit_beq_eq_false (d := '-') hdig (by decide),
    digit_beq_eq_false (d := '+') hdig (by decide), Bool.false_eq_true, if_false]
  rw [← heq, parseDigits_natDecimal n]
  rfl

theorem parseIntJS_intToString (i : Int) : parseIntJS (intToString i) = some i := by
  unfold intToString
  split
  · rename_i hneg
    unfold parseIntJS
    show (match ('-' :: natDecimal i.natAbs).dropWhile isJsSpace with
      | [] => none
      | c :: rest =>
        if c == '-' then (parseDigits rest).map (fun n => -(n : Int))
        else if c == '+' then (parseDigits rest).map (fun n => (n : Int))
        else (parseDigits (c :: rest)).map (fun n => (n : Int))) = some i
    rw [dropWhile_cons_of_neg (by decide)]
    simp [parseDigits_natDecimal]
    rw [abs_of_neg hneg, neg_neg]
  · rename_i hpos
    rw [parseIntJS_natDecimal]
    congr 1
    omega

theorem timingSafeEqual_self (a : String) : timingSafeEqual a a = Except.ok true := by
  simp [timingSafeEqual]

theorem verifySignature_ok_of_fresh (h : WebhookHandler)
    (hmac : String → String → String) (now : Int) (s payload ts : String)
    (wt : Int) (hsec : h.secret = some s) (hs : (s == "") = false)
    (hts : parseIntJS ts = some wt)
    (hfresh : ((now - wt).natAbs : Int) ≤ h.tolerance) :
    h.verifySignature hmac now payload (hmac s (ts ++ "." ++ payload)) ts =
      Except.ok true := by
  unfold WebhookHandler.verifySignature
  rw [hsec]
  simp only [hs, Bool.false_eq_true, if_false, hts]
  rw [if_neg (by omega)]
  exact timingSafeEqual_self _

theorem parseWebhook_eq_of_secret (h : WebhookHandler)
    (hmac : String → String → String) (now : Int) (raw sig ts s : String)
    (hsec : h.secret = some s) (hs : (s == "") = false) :
    h.parseWebhook hmac now raw sig ts =
      match h.verifySignature hmac now raw sig ts with
      | Except.error e => Except.error e
      | Except.ok false =>
        Except.error (WebhookError.verification "Invalid webhook signature")
      | Except.ok true => jsonParseStep raw := by
  unfold WebhookHandler.parseWebhook
  rw [hsec]
  simp only [hs, Bool.false_eq_true, if_false]

theorem verifySignature_stale (h : WebhookHandler)
    (hmac : String → String → String) (now : Int) (s payload sig ts : String)
    (wt : Int) (hsec : h.secret = some s) (hs : (s == "") = false)
    (hts : parseIntJS ts = some wt)
    (hstale : h.tolerance < ((now - wt).natAbs : Int)) :
    h.verifySignature hmac now payload sig ts =
      Except.error
        (WebhookError.verification "Webhook timestamp too old or from the future") := by
  unfold WebhookHandler.verifySignature
  rw [hsec]
  simp only [hs, Bool.false_eq_true, if_false, hts]
  rw [if_pos hstale]

theorem verifySignature_error_cases (h : WebhookHandler)
    (hmac : String → String → String) (now : Int) (payload sig ts : String)
    (e : WebhookError)
    (he : h.verifySignature hmac now payload sig ts = Except.error e) :
    e = WebhookError.verification "Webhook secret not configured" ∨
    e = WebhookError.verification "Invalid timestamp format" ∨
    e = WebhookError.verification "Webhook timestamp too old or from the future" ∨
    e = WebhookError.rangeError := by
  unfold WebhookHandler.verifySignature at he
  split at he
  · injection he with h1
    exact Or.inl h1.symm
  · split at he
    · injection he with h1
      exact Or.inl h1.symm
    · split at he
      · injection he with h1
        exact Or.inr (Or.inl h1.symm)
      · split at he
        · injection he with h1
          exact Or.inr (Or.inr (Or.inl h1.symm))
        · unfold timingSafeEqual at he
          split at he
          · exact absurd he (by simp)
          · injection he with h1
            exact Or.inr (Or.inr (Or.inr h1.symm))

/-- C1 counterexample: the round-trip claim fails as stated for a stale
timestamp.  With the mocked current time 1700000000, signing with
timestamp 1, and verifying the returned pair with the same secret, does
not return true: verifySignature throws the staleness error instead of
returning a boolean. -/
theorem roundtrip_stale_counterexample :
    (WebhookHandler.create
        (some { secret := "whsec_test", tolerance := none })).verifySignature hmacStub
      1700000000 "p"
      (constructWebhookSignature hmacStub 1700000000 "p" "whsec_test" (some 1)).1
      (constructWebhookSignature hmacStub 1700000000 "p" "whsec_test" (some 1)).2 =
      Except.error
        (WebhookError.verification "Webhook timestamp too old or from the future") := by
  rfl

/-- C1 (amended): for every digest function `hmac`, payload `p`, non-empty
secret `s` and timestamp `t`, verifying the pair produced by
`constructWebhookSignature` on a handler configured with the same secret
returns true, provided the effective timestamp (`t`, or `now` when `t` is
the falsy value `0`) lies within the default 300-second tolerance of the
current time sampled by the verifier.  (The counterexample shows the
unamended claim fails outside that window; an empty secret also fails,
because the verifier treats it as unconfigured.) -/
theorem roundtrip_verify_amended (hmac : String → String → String)
    (now : Int) (p s : String) (t : Int) (hs : (s == "") = false)
    (hfresh : (((now - (if t = 0 then now else t)).natAbs : Int)) ≤ 300) :
    (WebhookHandler.create (some { secret := s, tolerance := none })).verifySignature
      hmac now p
      (constructWebhookSignature hmac now p s (some t)).1
      (constructWebhookSignature hmac now p s (some t)).2 = Except.ok true := by
  exact verifySignature_ok_of_fresh _ hmac now s p _ _ rfl hs
    (parseIntJS_intToString _) hfresh

/-- C1 witness: the amended round-trip at a concrete fresh input. -/
theorem roundtrip_verify_amended_witness :
    (("whsec_test" == "") = false) ∧
    ((((1700000000 : Int) -
        (if (1700000000 : Int) = 0 then 1700000000 else 1700000000)).natAbs : Int) ≤ 300) ∧
    (WebhookHandler.create
        (some { secret := "whsec_test", tolerance := none })).verifySignature hmacStub
      1700000000 "p"
      (constructWebhookSignature hmacStub 1700000000 "p" "whsec_test"
        (some 1700000000)).1
      (constructWebhookSignature hmacStub 1700000000 "p" "whsec_test"
        (some 1700000000)).2 = Except.ok true :=
  ⟨by decide, by decide,
    roundtrip_verify_amended hmacStub 1700000000 "p" "whsec_test" 1700000000
      (by decide) (by decide)⟩

/-- C4: with the default tolerance of 300 seconds, a correctly signed
payload timestamped exactly `now - 300` or `now + 300` verifies true,
while timestamps `now - 301` and `now + 301` are rejected with the
staleness error; the rejection holds for every supplied signature and
every digest function, so it happens before (and independently of) any
digest computation. -/
theorem staleness_boundary (hmac : String → String → String) (now : Int)
    (s payload : String) (hs : (s == "") = false) :
    ((WebhookHandler.create (some { secret := s, tolerance := none })).verifySignature
        hmac now payload (hmac s (intToString (now - 300) ++ "." ++ payload))
        (intToString (now - 300)) = Except.ok true) ∧
    ((WebhookHandler.create (some { secret := s, tolerance := none })).verifySignature
        hmac now payload (hmac s (intToString (now + 300) ++ "." ++ payload))
        (intToString (now + 300)) = Except.ok true) ∧
    (∀ sig, (WebhookHandler.create (some { secret := s, tolerance := none })).verifySignature
        hmac now payload sig (intToString (now - 301)) =
        Except.error
          (WebhookError.verification "Webhook timestamp too old or from the future")) ∧
    (∀ sig, (WebhookHandler.create (some { secret := s, tolerance := none })).verifySignature
        hmac now payload sig (intToString (now + 301)) =
        Except.error
          (WebhookError.verification "Webhook timestamp too old or from the future")) := by
  refine ⟨?_, ?_, ?_, ?_⟩
  · exact verifySignature_ok_of_fresh _ hmac now s payload _ _ rfl hs
      (parseIntJS_intToString _)
      (by show ((now - (now - 300)).natAbs : Int) ≤ 300; omega)
  · exact verifySignature_ok_of_fresh _ hmac now s payload _ _ rfl hs
      (parseIntJS_intToString _)
      (by show ((now - (now + 300)).natAbs : Int) ≤ 300; omega)
  · intro sig
    exact verifySignature_stale _ hmac now s payload sig _ _ rfl hs
      (parseIntJS_intToString _)
      (by show (300 : Int) < ((now - (now - 301)).natAbs : Int); omega)
  · intro sig
    exact verifySignature_stale _ hmac now s payload sig _ _ rfl hs
      (parseIntJS_intToString _)
      (by show (300 : Int) < ((now - (now + 301)).natAbs : Int); omega)

/-- C4 witness: acceptance at exactly `now - 300` for a concrete handler,
digest function and time. -/
theorem staleness_boundary_witness :
    (("whsec_test" == "") = false) ∧
    (WebhookHandler.create
        (some { secret := "whsec_test", tolerance := none })).verifySignature hmacStub
      1700000000 "p"
      (hmacStub "whsec_test" (intToString (1700000000 - 300) ++ "." ++ "p"))
      (intToString (1700000000 - 300)) = Except.ok true :=
  ⟨by decide, (staleness_boundary hmacStub 1700000000 "whsec_test" "p" (by decide)).1⟩

/-- C10: constructing a handler with tolerance explicitly 0 yields the
default effective tolerance of 300 seconds (the `||` initializer treats 0
as falsy); no constructor argument can produce an effective tolerance of
0; and the resulting handler accepts a correctly signed message
timestamped 300 seconds in the past while rejecting one 301 seconds in
the past. -/
theorem tolerance_zero_default (s : String) (hs : (s == "") = false) :
    ((WebhookHandler.create (some { secret := s, tolerance := some 0 })).tolerance = 300) ∧
    (∀ options, (WebhookHandler.create options).tolerance ≠ 0) ∧
    (∀ (hmac : String → String → String) (now : Int) (payload : String),
      (WebhookHandler.create (some { secret := s, tolerance := some 0 })).verifySignature
        hmac now payload (hmac s (intToString (now - 300) ++ "." ++ payload))
        (intToString (now - 300)) = Except.ok true) ∧
    (∀ (hmac : String → String → String) (now : Int) (payload sig : String),
      (WebhookHandler.create (some { secret := s, tolerance := some 0 })).verifySignature
        hmac now payload sig (intToString (now - 301)) =
        Except.error
          (WebhookError.verification "Webhook timestamp too old or from the future")) := by
  refine ⟨rfl, ?_, ?_, ?_⟩
  · intro options
    cases options with
    | none => simp [WebhookHandler.create]
    | some o =>
      rcases o with ⟨sec, tol⟩
      cases tol with
      | none => simp [WebhookHandler.create]
      | some t =>
        simp only [WebhookHandler.create]
        split <;> omega
  · intro hmac now payload
    exact verifySignature_ok_of_fresh _ hmac now s payload _ _ rfl hs
      (parseIntJS_intToString _)
      (by show ((now - (now - 300)).natAbs : Int) ≤ 300; omega)
  · intro hmac now payload sig
    exact verifySignature_stale _ hmac now s payload sig _ _ rfl hs
      (parseIntJS_intToString _)
      (by show (300 : Int) < ((now - (now - 301)).natAbs : Int); omega)

/-- C10 witness: the zero-tolerance handler at a concrete secret, with the
default window in effect and acceptance at `now - 300`. -/
theorem tolerance_zero_default_witness :
    (("whsec_test" == "") = false) ∧
    (WebhookHandler.create
        (some { secret := "whsec_test", tolerance := some 0 })).tolerance = 300 ∧
    (WebhookHandler.create
        (some { secret := "whsec_test", tolerance := some 0 })).verifySignature hmacStub
      1700000000 "p"
      (hmacStub "whsec_test" (intToString (1700000000 - 300) ++ "." ++ "p"))
      (intToString (1700000000 - 300)) = Except.ok true :=
  ⟨by decide, (tolerance_zero_default "whsec_test" (by decide)).1,
    (tolerance_zero_default "whsec_test" (by decide)).2.2.1 hmacStub 1700000000 "p"⟩

/-- C2 counterexample: a well-formed input (configured secret, fresh
integer timestamp) whose supplied signature has a byte length different
from the 64-character digest does not return false: the comparison
primitive throws a RangeError.  Here the empty signature is compared
against a 64-byte digest. -/
theorem length_mismatch_raises_counterexample :
    (WebhookHandler.create (some { secret := "s", tolerance := none })).verifySignature
      hmacStub 1700000000 "p" "" "1700000000" =
      Except.error WebhookError.rangeError := by
  rfl

/-- C2 (amended): verifySignature throws for configuration errors (no
secret stored) and format errors (timestamp with no leading integer); for
a configured secret and a fresh integer timestamp it returns the boolean
outcome of the comparison primitive exactly when the supplied signature
has the same UTF-8 byte length as the expected digest, and throws the
RangeError of `crypto.timingSafeEqual` when the byte lengths differ — a
wrong-length signature raises rather than returning false. -/
theorem verify_wellformed_result_amended (hmac : String → String → String)
    (now : Int) (h : WebhookHandler) (s payload sig ts : String) (wt : Int)
    (hsec : h.secret = some s) (hs : (s == "") = false)
    (hts : parseIntJS ts = some wt)
    (hfresh : ((now - wt).natAbs : Int) ≤ h.tolerance) :
    (∀ h2 : WebhookHandler, h2.secret = none → ∀ p2 sig2 ts2,
        h2.verifySignature hmac now p2 sig2 ts2 =
          Except.error (WebhookError.verification "Webhook secret not configured")) ∧
    (∀ ts2, parseIntJS ts2 = none →
        h.verifySignature hmac now payload sig ts2 =
          Except.error (WebhookError.verification "Invalid timestamp format")) ∧
    (utf8Len sig = utf8Len (hmac s (ts ++ "." ++ payload)) →
      h.verifySignature hmac now payload sig ts =
        Except.ok (sig == hmac s (ts ++ "." ++ payload))) ∧
    (utf8Len sig ≠ utf8Len (hmac s (ts ++ "." ++ payload)) →
      h.verifySignature hmac now payload sig ts =
        Except.error WebhookError.rangeError) := by
  refine ⟨?_, ?_, ?_, ?_⟩
  · intro h2 hn p2 sig2 ts2
    unfold WebhookHandler.verifySignature
    rw [hn]
  · intro ts2 hts2
    unfold WebhookHandler.verifySignature
    rw [hsec]
    simp only [hs, Bool.false_eq_true, if_false, hts2]
  · intro heq
    unfold WebhookHandler.verifySignature
    rw [hsec]
    simp only [hs, Bool.false_eq_true, if_false, hts]
    rw [if_neg (by omega)]
    unfold timingSafeEqual
    rw [if_pos (by simpa using heq)]
  · intro hne
    unfold WebhookHandler.verifySignature
    rw [hsec]
    simp only [hs, Bool.false_eq_true, if_false, hts]
    rw [if_neg (by omega)]
    unfold timingSafeEqual
    rw [if_neg (by simpa using hne)]

/-- C2 witness: the amended behaviour at a concrete fresh input whose
signature has the digest's byte length. -/
theorem verify_wellformed_result_amended_witness :
    ((WebhookHandler.create (some { secret := "s", tolerance := none })).secret =
      some "s") ∧
    (("s" == "") = false) ∧
    (parseIntJS "1700000000" = some 1700000000) ∧
    ((((1700000000 : Int) - 1700000000).natAbs : Int) ≤
      (WebhookHandler.create (some { secret := "s", tolerance := none })).tolerance) ∧
    (utf8Len (hmacStub "s" "x") =
      utf8Len (hmacStub "s" ("1700000000" ++ "." ++ "p"))) ∧
    (WebhookHandler.create (some { secret := "s", tolerance := none })).verifySignature
      hmacStub 1700000000 "p" (hmacStub "s" "x") "1700000000" =
      Except.ok ((hmacStub "s" "x") == hmacStub "s" ("1700000000" ++ "." ++ "p")) :=
  ⟨rfl, by decide, by decide, by decide, by decide,
    (verify_wellformed_result_amended hmacStub 1700000000 _ "s" "p"
      (hmacStub "s" "x") "1700000000" 1700000000 rfl (by decide) (by decide)
      (by decide)).2.2.1 (by decide)⟩

/-- C3 counterexample: a handler constructed without a secret does not
raise a configuration error from parseWebhook; the call skips
verification and successfully parses the payload. -/
theorem parseWebhook_no_secret_counterexample :
    (WebhookHandler.create none).parseWebhook hmacStub 0 "\x7b\x7d" "sig" "0" =
      Except.ok (Json.obj []) := by
  rfl

/-- C3 (amended): on a handler constructed without a secret,
verifySignature raises the configuration error for every input, but
parseWebhook skips verification entirely and proceeds directly to the
JSON-parsing step (succeeding on well-formed payloads); only
verifySignature enforces the configured-secret precondition. -/
theorem unconfigured_secret_amended (hmac : String → String → String)
    (now : Int) (h : WebhookHandler) (hsec : h.secret = none) :
    (∀ payload sig ts, h.verifySignature hmac now payload sig ts =
        Except.error (WebhookError.verification "Webhook secret not configured")) ∧
    (∀ raw sig ts, h.parseWebhook hmac now raw sig ts = jsonParseStep raw) := by
  constructor
  · intro payload sig ts
    unfold WebhookHandler.verifySignature
    rw [hsec]
  · intro raw sig ts
    unfold WebhookHandler.parseWebhook
    rw [hsec]

/-- C3 witness: the amended behaviour on the concretely constructed
secretless handler. -/
theorem unconfigured_secret_amended_witness :
    ((WebhookHandler.create none).secret = none) ∧
    (WebhookHandler.create none).verifySignature hmacStub 0 "p" "sig" "0" =
      Except.error (WebhookError.verification "Webhook secret not configured") ∧
    (WebhookHandler.create none).parseWebhook hmacStub 0 "\x7b\x7d" "sig" "0" =
      jsonParseStep "\x7b\x7d" :=
  ⟨rfl, (unconfigured_secret_amended hmacStub 0 _ rfl).1 "p" "sig" "0",
    (unconfigured_secret_amended hmacStub 0 _ rfl).2 "\x7b\x7d" "sig" "0"⟩

/-- C5 counterexample: the timestamp header "1700000000abc" is not a
base-10 integer (it contains non-digit characters), yet verifySignature
raises no format failure: parseInt accepts the digit prefix as the
timestamp, and with a matching signature over the raw header string the
call returns true. -/
theorem timestamp_digit_prefix_counterexample :
    (WebhookHandler.create (some { secret := "s", tolerance := none })).verifySignature
      hmacStub 1700000000 "p"
      (hmacStub "s" ("1700000000abc" ++ "." ++ "p")) "1700000000abc" =
      Except.ok true := by
  rfl

/-- C5 (amended): the format failure is raised exactly when `parseInt`
yields NaN — when the timestamp has no leading integer after optional
whitespace and sign.  A header with a digit prefix followed by non-digit
characters is not a format failure: the prefix value becomes the
timestamp, and the call never produces the format error once parseInt
succeeds. -/
theorem timestamp_format_amended (hmac : String → String → String)
    (now : Int) (h : WebhookHandler) (s payload sig ts : String)
    (hsec : h.secret = some s) (hs : (s == "") = false) :
    (parseIntJS ts = none →
      h.verifySignature hmac now payload sig ts =
        Except.error (WebhookError.verification "Invalid timestamp format")) ∧
    (∀ wt, parseIntJS ts = some wt →
      h.verifySignature hmac now payload sig ts ≠
        Except.error (WebhookError.verification "Invalid timestamp format")) := by
  constructor
  · intro hn
    unfold WebhookHandler.verifySignature
    rw [hsec]
    simp only [hs, Bool.false_eq_true, if_false, hn]
  · intro wt hw
    unfold WebhookHandler.verifySignature
    rw [hsec]
    simp only [hs, Bool.false_eq_true, if_false, hw]
    split
    · intro hcon
      injection hcon with h1
      exact absurd h1 (by decide)
    · unfold timingSafeEqual
      split
      · exact fun hcon => Except.noConfusion hcon
      · intro hcon
        injection hcon with h1
        exact absurd h1 (by decide)

/-- C5 witness: the amended format-failure behaviour on a header with no
leading integer. -/
theorem timestamp_format_amended_witness :
    ((WebhookHandler.create (some { secret := "s", tolerance := none })).secret =
      some "s") ∧
    (("s" == "") = false) ∧
    (parseIntJS "abc" = none) ∧
    (WebhookHandler.create (some { secret := "s", tolerance := none })).verifySignature
      hmacStub 0 "p" "sig" "abc" =
      Except.error (WebhookError.verification "Invalid timestamp format") :=
  ⟨rfl, by decide, by decide,
    (timestamp_format_amended hmacStub 0 _ "s" "p" "sig" "abc" rfl (by decide)).1
      (by decide)⟩

/-- C6: with a configured secret, verification runs before parsing.  When
the payload is not well-formed JSON and the signature does not verify,
parseWebhook fails with the error of the verification stage — never the
parse-kind error "Invalid webhook payload JSON" — and the parse-kind
error occurs only after verification returned true on a malformed
payload; the two kinds are distinguishable as distinct error values. -/
theorem verify_before_parse (hmac : String → String → String) (now : Int)
    (h : WebhookHandler) (s raw sig ts : String)
    (hsec : h.secret = some s) (hs : (s == "") = false) :
    (jsonParse raw = none →
      h.verifySignature hmac now raw sig ts ≠ Except.ok true →
      ∃ e, h.parseWebhook hmac now raw sig ts = Except.error e ∧
        e ≠ WebhookError.verification "Invalid webhook payload JSON") ∧
    (h.parseWebhook hmac now raw sig ts =
        Except.error (WebhookError.verification "Invalid webhook payload JSON") →
      h.verifySignature hmac now raw sig ts = Except.ok true ∧
        jsonParse raw = none) := by
  have hpw := parseWebhook_eq_of_secret h hmac now raw sig ts s hsec hs
  constructor
  · intro _ hver
    rw [hpw]
    rcases hv : h.verifySignature hmac now raw sig ts with e | b
    · simp only [hv]
      refine ⟨e, rfl, ?_⟩
      intro heq
      rcases verifySignature_error_cases h hmac now raw sig ts e hv with
        h1 | h2 | h3 | h4
      · rw [heq] at h1; exact absurd h1 (by decide)
      · rw [heq] at h2; exact absurd h2 (by decide)
      · rw [heq] at h3; exact absurd h3 (by decide)
      · rw [heq] at h4; exact absurd h4 (by decide)
    · cases b with
      | false =>
        simp only [hv]
        exact ⟨WebhookError.verification "Invalid webhook signature", rfl, by decide⟩
      | true => exact absurd hv hver
  · intro hpe
    rw [hpw] at hpe
    rcases hv : h.verifySignature hmac now raw sig ts with e | b
    · simp only [hv] at hpe
      injection hpe with h1
      rcases verifySignature_error_cases h hmac now raw sig ts e hv with
        h1x | h2x | h3x | h4x
      · rw [h1] at h1x; exact absurd h1x (by decide)
      · rw [h1] at h2x; exact absurd h2x (by decide)
      · rw [h1] at h3x; exact absurd h3x (by decide)
      · rw [h1] at h4x; exact absurd h4x (by decide)
    · cases b with
      | false =>
        simp only [hv] at hpe
        injection hpe with h1
        exact absurd h1 (by decide)
      | true =>
        refine ⟨rfl, ?_⟩
        simp only [hv] at hpe
        unfold jsonParseStep at hpe
        rcases hj : jsonParse raw with _ | j
        · rfl
        · rw [hj] at hpe
          exact Except.noConfusion hpe

/-- C6 witness: a malformed payload with a mismatching (here wrong-size
is avoided: same-length wrong content) signature fails with the
verification-kind error, not the parse-kind error. -/
theorem verify_before_parse_witness :
    ((WebhookHandler.create (some { secret := "s", tolerance := none })).secret =
      some "s") ∧
    (("s" == "") = false) ∧
    (jsonParse "not json" = none) ∧
    ((WebhookHandler.create (some { secret := "s", tolerance := none })).verifySignature
        hmacStub 0 "not json" (String.mk (List.replicate 64 'b')) "0" ≠
      Except.ok true) ∧
    (∃ e, (WebhookHandler.create
        (some { secret := "s", tolerance := none })).parseWebhook hmacStub 0
        "not json" (String.mk (List.replicate 64 'b')) "0" = Except.error e ∧
      e ≠ WebhookError.verification "Invalid webhook payload JSON") := by
  have heq : (WebhookHandler.create
      (some { secret := "s", tolerance := none })).verifySignature hmacStub 0
      "not json" (String.mk (List.replicate 64 'b')) "0" = Except.ok false := by rfl
  have hne : (WebhookHandler.create
      (some { secret := "s", tolerance := none })).verifySignature hmacStub 0
      "not json" (String.mk (List.replicate 64 'b')) "0" ≠ Except.ok true := by
    rw [heq]
    simp
  exact ⟨rfl, by decide, by rfl, hne,
    (verify_before_parse hmacStub 0 _ "s" "not json"
      (String.mk (List.replicate 64 'b')) "0" rfl (by decide)).1 (by rfl) hne⟩

/-- C7: a well-formed JSON payload decodes successfully regardless of its
event tag — the decoder performs no tag validation, so unknown tags yield
a generic event object with whatever data bag the payload carried — both
when no secret is configured and when verification succeeds; and whenever
the map passed to `on` has no registered handler for the decoded event
(unknown tag, non-string or missing tag, or a known tag whose slot is
empty), the dispatch function returns normally without invoking any
handler, for every handler map including ones whose handlers all fail. -/
theorem unknown_tag_decode_and_dispatch_noop (hmac : String → String → String)
    (now : Int) (h : WebhookHandler) (raw sig ts : String) (j : Json)
    (hparse : jsonParse raw = some j)
    (hok : h.secret = none ∨
      (∃ s, h.secret = some s ∧ (s == "") = false ∧
        h.verifySignature hmac now raw sig ts = Except.ok true)) :
    h.parseWebhook hmac now raw sig ts = Except.ok j ∧
    (∀ (ε : Type) (handlers : WebhookEventType → Option (Option Json → Except ε Unit)),
      eventTagLookup handlers j = none →
      WebhookHandler.on handlers j = Except.ok ()) := by
  constructor
  · rcases hok with hn | ⟨s, hsec, hs, hv⟩
    · unfold WebhookHandler.parseWebhook
      rw [hn]
      unfold jsonParseStep
      rw [hparse]
    · rw [parseWebhook_eq_of_secret h hmac now raw sig ts s hsec hs]
      simp only [hv]
      unfold jsonParseStep
      rw [hparse]
  · intro ε handlers hnone
    unfold WebhookHandler.on
    simp only [hnone]

/-- C7 witness: the spec's unknown-tag payload decodes on a secretless
handler, and dispatching it through a map whose six slots all hold
failing handlers is a no-op returning success. -/
theorem unknown_tag_decode_and_dispatch_noop_witness :
    (jsonParse "\x7b\"event\":\"new.unknown.tag\",\"data\":\x7b\x7d\x7d" =
      some (Json.obj [("event", Json.str "new.unknown.tag"),
        ("data", Json.obj [])])) ∧
    ((WebhookHandler.create none).parseWebhook hmacStub 0
        "\x7b\"event\":\"new.unknown.tag\",\"data\":\x7b\x7d\x7d" "sig" "0" =
      Except.ok (Json.obj [("event", Json.str "new.unknown.tag"),
        ("data", Json.obj [])])) ∧
    (WebhookHandler.on (fun _ => some (fun _ => Except.error "boom"))
        (Json.obj [("event", Json.str "new.unknown.tag"), ("data", Json.obj [])]) =
      Except.ok ()) :=
  ⟨by rfl,
    (unknown_tag_decode_and_dispatch_noop hmacStub 0 (WebhookHandler.create none)
      "\x7b\"event\":\"new.unknown.tag\",\"data\":\x7b\x7d\x7d" "sig" "0"
      (Json.obj [("event", Json.str "new.unknown.tag"), ("data", Json.obj [])])
      (by rfl) (Or.inl rfl)).1,
    (unknown_tag_decode_and_dispatch_noop hmacStub 0 (WebhookHandler.create none)
      "\x7b\"event\":\"new.unknown.tag\",\"data\":\x7b\x7d\x7d" "sig" "0"
      (Json.obj [("event", Json.str "new.unknown.tag"), ("data", Json.obj [])])
      (by rfl) (Or.inl rfl)).2 String
      (fun _ => some (fun _ => Except.error "boom")) (by rfl)⟩

/-- C8: when the decoded event's tag is a known tag whose slot in the map
is registered, the dispatch function's result is exactly that handler's
awaited outcome applied to the event's data — the single registered
handler runs, and a failing handler's error propagates unchanged to the
caller of the dispatch function. -/
theorem dispatch_invokes_registered_handler (ε : Type)
    (handlers : WebhookEventType → Option (Option Json → Except ε Unit))
    (j : Json) (s : String) (t : WebhookEventType)
    (hnd : Option Json → Except ε Unit)
    (hev : jsGetField j "event" = some (Json.str s))
    (ht : webhookEventTypeOfString s = some t)
    (hreg : handlers t = some hnd) :
    WebhookHandler.on handlers j = hnd (jsGetField j "data") ∧
    (∀ e, hnd (jsGetField j "data") = Except.error e →
      WebhookHandler.on handlers j = Except.error e) := by
  have hlook : eventTagLookup handlers j = some hnd := by
    unfold eventTagLookup
    simp only [hev, ht]
    exact hreg
  constructor
  · unfold WebhookHandler.on
    simp only [hlook]
  · intro e he
    unfold WebhookHandler.on
    simp only [hlook, he]

/-- C8 witness: a map registering only a failing handler for
screening.completed; dispatching a screening.completed event surfaces the
handler's failure to the caller. -/
theorem dispatch_invokes_registered_handler_witness :
    (jsGetField (Json.obj [("event", Json.str "screening.completed"),
        ("data", Json.null)]) "event" = some (Json.str "screening.completed")) ∧
    (webhookEventTypeOfString "screening.completed" =
      some WebhookEventType.screeningCompleted) ∧
    (WebhookHandler.on
        (fun t => if t = WebhookEventType.screeningCompleted
          then some (fun _ => Except.error "boom") else none)
        (Json.obj [("event", Json.str "screening.completed"), ("data", Json.null)]) =
      Except.error "boom") :=
  ⟨rfl, rfl,
    (dispatch_invokes_registered_handler String
      (fun t => if t = WebhookEventType.screeningCompleted
        then some (fun _ => Except.error "boom") else none)
      (Json.obj [("event", Json.str "screening.completed"), ("data", Json.null)])
      "screening.completed" WebhookEventType.screeningCompleted
      (fun _ => Except.error "boom") rfl rfl rfl).1⟩

/-- The exact raw payload string of the spec's concrete scenario. -/
def c9Payload : String :=
  "\x7b\"event\":\"screening.failed\",\"timestamp\":\"2024-01-01T00:00:00Z\",\"webhook_id\":\"wh_1\",\"api_version\":\"1.0\",\"data\":\x7b\"purchase_token\":\"abc\",\"external_customer_id\":\"c1\",\"external_tenant_id\":\"t1\",\"status\":\"failed\",\"reason\":\"no_response\",\"errors\":[\"tenant_timeout\"]\x7d\x7d"

set_option maxRecDepth 100000 in
/-- C9: for the spec's exact payload, secret "whsec_test" and timestamp
"1700000000", the signature hmac("whsec_test", "1700000000." ++ payload)
— for every digest function, hence for the real HMAC-SHA256 — makes
verifySignature return true at the mocked current time 1700000000, and
parseWebhook then yields an event whose "event" field is
"screening.failed" and whose data.errors is ["tenant_timeout"]. -/
theorem concrete_scenario (hmac : String → String → String) :
    ((WebhookHandler.create
        (some { secret := "whsec_test", tolerance := none })).verifySignature hmac
      1700000000 c9Payload (hmac "whsec_test" ("1700000000." ++ c9Payload))
      "1700000000" = Except.ok true) ∧
    (((WebhookHandler.create
        (some { secret := "whsec_test", tolerance := none })).parseWebhook hmac
      1700000000 c9Payload (hmac "whsec_test" ("1700000000." ++ c9Payload))
      "1700000000").toOption.bind (fun j => jsGetField j "event") =
      some (Json.str "screening.failed")) ∧
    ((((WebhookHandler.create
        (some { secret := "whsec_test", tolerance := none })).parseWebhook hmac
      1700000000 c9Payload (hmac "whsec_test" ("1700000000." ++ c9Payload))
      "1700000000").toOption.bind (fun j => jsGetField j "data")).bind
        (fun d => jsGetField d "errors") =
      some (Json.arr [Json.str "tenant_timeout"])) := by
  have hsig : ("1700000000." ++ c9Payload) = ("1700000000" ++ "." ++ c9Payload) := by
    rfl
  have hv : (WebhookHandler.create
      (some { secret := "whsec_test", tolerance := none })).verifySignature hmac
      1700000000 c9Payload (hmac "whsec_test" ("1700000000." ++ c9Payload))
      "1700000000" = Except.ok true := by
    rw [hsig]
    exact verifySignature_ok_of_fresh _ hmac 1700000000 "whsec_test" c9Payload
      "1700000000" 1700000000 rfl (by decide) (by decide) (by decide)
  have hpw : (WebhookHandler.create
      (some { secret := "whsec_test", tolerance := none })).parseWebhook hmac
      1700000000 c9Payload (hmac "whsec_test" ("1700000000." ++ c9Payload))
      "1700000000" = jsonParseStep c9Payload := by
    rw [parseWebhook_eq_of_secret _ hmac 1700000000 c9Payload _ "1700000000"
      "whsec_test" rfl (by decide)]
    simp only [hv]
  refine ⟨hv, ?_, ?_⟩
  · rw [hpw]
    rfl
  · rw [hpw]
    rfl

/-- C9 witness: the scenario instantiated at a concrete digest function. -/
theorem concrete_scenario_witness :
    (WebhookHandler.create
        (some { secret := "whsec_test", tolerance := none })).verifySignature hmacStub
      1700000000 c9Payload (hmacStub "whsec_test" ("1700000000." ++ c9Payload))
      "1700000000" = Except.ok true :=
  (concrete_scenario hmacStub).1
